import Mathlib

/-!
Verification of the firedrake plotting module (`firedrake/plot.py`).

The module samples finite-element functions at reference points of each mesh
cell, evaluates basis tabulations, reconstructs Bezier control points, and
builds global triangulations for rendering.  The definitions below are a
shallow embedding of the numerical and control-flow core of that module,
with real numbers modelled by `ℚ` (the sampling grids, basis values and
change-of-basis matrices are all rational at rational inputs, so this is
exact), numpy arrays by functions out of `Fin` types or by `List`s, and
Python exceptions by `Except`.
-/

namespace FiredrakePlot

/-! ## Errors and outcomes of the renderers

`plot.py` raises `RuntimeError` for a missing matplotlib dependency and for
unsupported functionality, `RuntimeError("Not in notebook")` when ipywidgets
is absent, and (implicitly, in `bezier_plot`) a `KeyError` when the
path-code dictionary `codes = {1: ..., 2: ..., 3: ...}` is indexed with a
degree it does not hold.  A renderer call either produces a matplotlib
figure or falls off the end of the Python function returning `None`. -/

inductive PlotError where
  | matplotlibMissing : PlotError
  | runtimeUnsupported : PlotError
  | keyError : PlotError
  | notInNotebook : PlotError
deriving DecidableEq

inductive RenderOutcome where
  | fig : RenderOutcome
  | noneReturned : RenderOutcome
deriving DecidableEq

/-- Matplotlib path codes used by `bezier_plot` and `interp_bezier`. -/
inductive PathCode where
  | MOVETO : PathCode
  | LINETO : PathCode
  | CURVE3 : PathCode
  | CURVE4 : PathCode
deriving DecidableEq

/-! ## Sampling Grid Generator (`_calculate_points`, lines 156-183) -/

/-- The i-th entry of `np.linspace(0.0, 1.0, num=n)`: `i / (n - 1)`
(with the `ℚ` convention `q / 0 = 0`, this also gives the single sample
`0.0` that numpy produces for `n = 1`). -/
def linVal (n i : ℕ) : ℚ := (i : ℚ) / ((n : ℚ) - 1)

/-- Interval-cell sample points:
`np.linspace(0.0, 1.0, num=num_points)` (line 167). -/
def interval_points (n : ℕ) : List ℚ :=
  (List.range n).map (linVal n)

/-- Quadrilateral-cell sample points:
`np.array(np.meshgrid(points_1d, points_1d)).T.reshape(-1, 2)` (line 172),
i.e. all pairs `(points_1d[i], points_1d[j])` in row-major order. -/
def quad_points (n : ℕ) : List (ℚ × ℚ) :=
  (List.range n).flatMap fun i =>
    (List.range n).map fun j => (linVal n i, linVal n j)

/-- Triangle-cell sample points (lines 174-178):
`np.array(np.meshgrid(points_1d, points_1d_rev)).T[iu]` with
`iu = np.triu_indices(num_points)` selects, for every pair `i ≤ j < n`,
the point `(points_1d[i], points_1d_rev[j]) = (i/(n-1), (n-1-j)/(n-1))`. -/
def triangle_points (n : ℕ) : List (ℚ × ℚ) :=
  (List.range n).flatMap fun i =>
    ((List.range n).filter fun j => decide (i ≤ j)).map fun j =>
      (linVal n i, linVal n (n - 1 - j))

/-! ## Field Evaluator (`_calculate_values`, lines 130-153) -/

/-- The `vec_length` of `_calculate_values` (lines 147-150): `1` when
`function.ufl_shape == ()`, else the first entry of the shape. -/
def vec_length (ufl_shape : List ℕ) : ℕ :=
  match ufl_shape with
  | [] => 1
  | s :: _ => s

/-- Model of `np.einsum("ijk,jl->ilk", data, elem)` (line 153): contract the
per-cell nodal data `(cell, node, component)` with the tabulated basis
`(node, point)` into values `(cell, point, component)`. -/
def einsum_ijk_jl_ilk (c n p v : ℕ) (data : Fin c → Fin n → Fin v → ℚ)
    (elem : Fin n → Fin p → ℚ) : Fin c → Fin p → Fin v → ℚ :=
  fun i l k => ∑ j, data i j k * elem j l

/-- Model of `np.reshape(data, data.shape + (1,))` (line 152): when `vec_length = 1`
the gathered data `(cell, node)` acquires a trailing component axis. -/
def reshape_append_axis (c n : ℕ) (data : Fin c → Fin n → ℚ) :
    Fin c → Fin n → Fin 1 → ℚ :=
  fun i j _ => data i j

/-- Model of `_calculate_values` after the gather and (possible) reshape: the data
carries `vec_length ufl_shape` components and is contracted with the
tabulation.  The result is indexed `(cell, point, component)`. -/
def calculate_values (ufl_shape : List ℕ) (c n p : ℕ)
    (data : Fin c → Fin n → Fin (vec_length ufl_shape) → ℚ)
    (elem : Fin n → Fin p → ℚ) :
    Fin c → Fin p → Fin (vec_length ufl_shape) → ℚ :=
  einsum_ijk_jl_ilk c n p (vec_length ufl_shape) data elem

/-! ## One-dimensional point assembly (`calculate_one_dim_points`,
lines 186-199) -/

/-- Model of `.reshape(-1)` on a `(cell, point, component)` array with one
component: the values flattened in row-major order. -/
def flatten_vals (c p : ℕ) (vals : Fin c → Fin p → Fin 1 → ℚ) : List ℚ :=
  (List.finRange c).flatMap fun i =>
    (List.finRange p).flatMap fun l =>
      (List.finRange 1).map fun k => vals i l k

/-- Comparison by x-coordinate used to model `np.argsort(x_vals)`
(line 196). -/
def xle (a b : ℚ × ℚ) : Prop := a.1 ≤ b.1

instance : DecidableRel xle :=
  fun a b => inferInstanceAs (Decidable (a.1 ≤ b.1))

instance : IsTotal (ℚ × ℚ) xle :=
  ⟨fun a b => le_total a.1 b.1⟩

instance : IsTrans (ℚ × ℚ) xle :=
  ⟨fun a b c hab hbc => le_trans (show a.1 ≤ b.1 from hab) (show b.1 ≤ c.1 from hbc)⟩

/-- Model of `calculate_one_dim_points` (lines 186-199): flatten the evaluated
x-coordinates and values across all cells, then apply the permutation
`np.argsort(x_vals)` to both rows, i.e. sort the (x, y) pairs by x.
(`np.argsort` fixes an unspecified order on ties; a stable insertion sort
is one admissible choice.)  Returns the pair of rows `[x_vals, y_vals]`. -/
def calculate_one_dim_points (c p : ℕ)
    (x_vals y_vals : Fin c → Fin p → Fin 1 → ℚ) : List ℚ × List ℚ :=
  let xs := flatten_vals c p x_vals
  let ys := flatten_vals c p y_vals
  let sorted := List.insertionSort xle (xs.zip ys)
  (sorted.map Prod.fst, sorted.map Prod.snd)

/-! ## Triangulation Builder (`two_dimension_triangle_Z`, lines 202-242) -/

/-- All vertex indices occurring in a list of index triples. -/
def tri_indices (tris : List (ℕ × ℕ × ℕ)) : List ℕ :=
  tris.flatMap fun t => [t.1, t.2.1, t.2.2]

/-- Model of `num_verts = triangles.max() + 1` (line 229). -/
def tri_num_verts (tris : List (ℕ × ℕ × ℕ)) : ℕ :=
  (tri_indices tris).foldr max 0 + 1

/-- One cell's row of `triangles + add_idx` (line 240): every local vertex
index offset by `cell * num_verts`. -/
def offset_cell_triangles (tris : List (ℕ × ℕ × ℕ)) (num_verts cell : ℕ) :
    List (ℕ × ℕ × ℕ) :=
  tris.map fun t =>
    (t.1 + cell * num_verts, t.2.1 + cell * num_verts, t.2.2 + cell * num_verts)

/-- Model of `all_triangles = (triangles + add_idx).reshape(-1, 3)` with
`add_idx = np.arange(num_cells).reshape(-1, 1, 1) * num_verts`
(lines 239-240): the per-cell offset copies concatenated. -/
def all_triangles (tris : List (ℕ × ℕ × ℕ)) (num_cells : ℕ) :
    List (ℕ × ℕ × ℕ) :=
  (List.range num_cells).flatMap fun cell =>
    offset_cell_triangles tris (tri_num_verts tris) cell

/-- Model of `X = coords_vals.reshape(-1, 2).T[0]` (line 237): one global vertex
coordinate per (cell, reference point) pair, `P` reference points per
cell. -/
def global_X (num_cells P : ℕ) (xcoords : Fin num_cells → Fin P → ℚ) :
    List ℚ :=
  (List.finRange num_cells).flatMap fun cell =>
    (List.finRange P).map fun v => xcoords cell v

/-! ## Bezier Reconstructor (`_bezier_calculate_points`, `bezier_plot`,
`_bernstein`, lines 298-353 and 394-397) -/

/-- Model of `_bernstein(x, k, n)` (lines 394-397): `comb * x^k * (1-x)^(n-k)` with
`comb = factorial(n) / factorial(k) / factorial(n-k)` computed by integer
floor division (exact whenever `k ≤ n`). -/
def _bernstein (x : ℚ) (k n : ℕ) : ℚ :=
  ((n.factorial / k.factorial / (n - k).factorial : ℕ) : ℚ) * x ^ k *
    (1 - x) ^ (n - k)

/-- The matrix `M` of `_bezier_calculate_points` (lines 304-308):
`M[i, j]` is the Bernstein basis value of degree `deg`, index `i`,
evaluated at the reference coordinate of the `j`-th degree of freedom
(read off the dual basis point dictionary). -/
def bezier_M (deg : ℕ) (dofPt : Fin (deg + 1) → ℚ) :
    Matrix (Fin (deg + 1)) (Fin (deg + 1)) ℚ :=
  Matrix.of fun i j => _bernstein (dofPt j) (i : ℕ) deg

/-- Model of `np.linalg.inv` on an invertible square rational matrix: the inverse
`det⁻¹ • adjugate`. -/
def np_linalg_inv {m : ℕ} (M : Matrix (Fin m) (Fin m) ℚ) :
    Matrix (Fin m) (Fin m) ℚ :=
  M.det⁻¹ • M.adjugate

/-- Model of `np.dot(function.dat.data_ro[cell_node_list], M_inv)` (lines 309-311):
each cell's row of nodal coefficients multiplied by the inverse of `M`,
giving the Bezier control-point values for that cell. -/
def bezier_calculate_points (deg c : ℕ) (dofPt : Fin (deg + 1) → ℚ)
    (data : Fin c → Fin (deg + 1) → ℚ) : Fin c → Fin (deg + 1) → ℚ :=
  fun cell j => ∑ k, data cell k * np_linalg_inv (bezier_M deg dofPt) k j

/-- The dictionary `codes = {1: [MOVETO, LINETO], 2: [MOVETO, CURVE3,
CURVE3], 3: [MOVETO, CURVE4, CURVE4, CURVE4]}` of `bezier_plot`
(lines 344-346); indexing it at any other degree raises `KeyError`. -/
def bezier_codes (deg : ℕ) : Option (List PathCode) :=
  if deg = 1 then some [PathCode.MOVETO, PathCode.LINETO]
  else if deg = 2 then some [PathCode.MOVETO, PathCode.CURVE3, PathCode.CURVE3]
  else if deg = 3 then
    some [PathCode.MOVETO, PathCode.CURVE4, PathCode.CURVE4, PathCode.CURVE4]
  else none

/-- The body of `bezier_plot` after the degree-0 branch (lines 334-353):
the control points are computed, then `codes[deg]` is looked up — a
missing key aborts the call with `KeyError`, otherwise a path patch is
drawn and the current figure returned. -/
def bezier_plot_body (deg : ℕ) : Except PlotError RenderOutcome :=
  match bezier_codes deg with
  | some _ => Except.ok RenderOutcome.fig
  | none => Except.error PlotError.keyError

/-- Model of `bezier_plot(function, ...)` (lines 314-353): raises if matplotlib is
missing; a degree-0 function is re-interpolated onto a degree-1 DG space
and the call recurses (modelled by running the body at degree 1);
otherwise the body runs at the function's degree. -/
def bezier_plot_model (mpl : Bool) (deg : ℕ) : Except PlotError RenderOutcome :=
  if mpl = false then Except.error PlotError.matplotlibMissing
  else if deg = 0 then bezier_plot_body 1
  else bezier_plot_body deg

/-! ## Renderer dispatch (`plot`, `_plot_mult`,
`interactive_multiple_plot`, lines 9-127) -/

/-- Model of `_plot_mult(functions, ...)` (lines 9-48): raises if matplotlib is
missing; returns `None` (no figure) when the function list is empty
(lines 20-21); otherwise builds the slider widget figure and returns it. -/
def plot_mult_model (mpl : Bool) (num_functions : ℕ) :
    Except PlotError RenderOutcome :=
  if mpl = false then Except.error PlotError.matplotlibMissing
  else if num_functions = 0 then Except.ok RenderOutcome.noneReturned
  else Except.ok RenderOutcome.fig

/-- Model of `plot(function, ...)` (lines 51-105): a non-`Function` argument is
routed to `_plot_mult`; otherwise matplotlib is required, then dispatch on
`(geometric_dimension, topological_dimension)`: `(1, 1)` plots via
`bezier_plot` when the element degree is `< 4` and via sampled points
(plain or Bezier-interpolated) otherwise; `(2, 2)` plots a surface or
contour figure; anything else raises
`RuntimeError("Unsupported functionality")`. -/
def plot_model (isFunction : Bool) (mpl : Bool) (gdim tdim deg : ℕ)
    (num_functions : ℕ) : Except PlotError RenderOutcome :=
  if isFunction = false then plot_mult_model mpl num_functions
  else if mpl = false then Except.error PlotError.matplotlibMissing
  else if gdim = tdim ∧ tdim = 1 then
    if deg < 4 then bezier_plot_model mpl deg
    else Except.ok RenderOutcome.fig
  else if gdim = tdim ∧ tdim = 2 then Except.ok RenderOutcome.fig
  else Except.error PlotError.runtimeUnsupported

/-- Model of `interactive_multiple_plot(functions, ...)` (lines 108-127): raises
`RuntimeError("Not in notebook")` if ipywidgets is missing; otherwise sets
up the `interact` widget and returns `None` — it never returns a figure. -/
def interactive_multiple_plot_model (ipywidgets : Bool) :
    Except PlotError RenderOutcome :=
  if ipywidgets = false then Except.error PlotError.notInNotebook
  else Except.ok RenderOutcome.noneReturned

/-- The sample-count adjustment of `plot` for the 1D degree-≥-4 Bezier
path (lines 83-84):
`num_sample_points = int(num_sample_points / 3) * 3 + 1 if
num_sample_points >= 4 else 4`. -/
def adjust_num_sample_points (num : ℕ) : ℕ :=
  if 4 ≤ num then num / 3 * 3 + 1 else 4

/-! ## Theorems -/

/-- Claim C7: for every requested point count `n`, the sampling grid
generator returns exactly `n` points for an interval cell, the `i`-th
point being `i / (n - 1)` (uniform subdivision of `[0, 1]`), and exactly
`n²` points for a quadrilateral cell. -/
theorem interval_and_quad_point_counts (n : ℕ) :
    (interval_points n).length = n ∧
    (∀ i : ℕ, ∀ h : i < (interval_points n).length,
      (interval_points n).get ⟨i, h⟩ = (i : ℚ) / ((n : ℚ) - 1)) ∧
    (quad_points n).length = n * n := by
  refine ⟨by simp [interval_points], ?_, ?_⟩
  · intro i h
    simp [interval_points, linVal]
  · simp [quad_points, List.length_flatMap, Function.comp_def, List.map_const',
      List.sum_replicate, smul_eq_mul]

/-- Witness for C7 at `n = 5`, `i = 2`. -/
theorem interval_and_quad_point_counts_witness :
    (interval_points 5).get ⟨2, by decide⟩ = (2 : ℚ) / ((5 : ℚ) - 1) :=
  (interval_and_quad_point_counts 5).2.1 2 (by decide)

/-- Claim C10: when `plot` takes the 1D, degree-≥-4, `bezier=True` path,
the adjusted sample count `n = adjust_num_sample_points num` satisfies
`n ≥ 4` and `n % 3 = 1` for every requested count, so each cell's `n`
points are consumed as exactly `(n - 1) / 3` cubic segments of 4 points
(consecutive segments sharing an endpoint): `3 * ((n - 1) / 3) + 1 = n`,
at least one segment exists, and every index `3k + r` (`k < (n - 1) / 3`,
`r < 4`) used by `interp_bezier`'s `rows + cols` index array is a valid
point index. -/
theorem adjusted_sample_count_cubic_segments (num : ℕ) :
    4 ≤ adjust_num_sample_points num ∧
    adjust_num_sample_points num % 3 = 1 ∧
    3 * ((adjust_num_sample_points num - 1) / 3) + 1 =
      adjust_num_sample_points num ∧
    1 ≤ (adjust_num_sample_points num - 1) / 3 ∧
    (∀ k, k < (adjust_num_sample_points num - 1) / 3 → ∀ r, r < 4 →
      3 * k + r < adjust_num_sample_points num) := by
  have key : 4 ≤ adjust_num_sample_points num ∧
      adjust_num_sample_points num % 3 = 1 := by
    unfold adjust_num_sample_points
    split <;> omega
  refine ⟨key.1, key.2, by omega, by omega, ?_⟩
  intro k hk r hr
  omega

/-- Witness for C10 at `num = 100` (adjusted count 100, 33 segments),
segment `k = 0`, point `r = 0`. -/
theorem adjusted_sample_count_cubic_segments_witness :
    3 * 0 + 0 < adjust_num_sample_points 100 ∧
    adjust_num_sample_points 100 % 3 = 1 :=
  ⟨(adjusted_sample_count_cubic_segments 100).2.2.2.2 0 (by decide) 0
      (by decide),
    (adjusted_sample_count_cubic_segments 100).2.1⟩

/-- Claim C8: for a single function whose mesh dimensions `(gdim, tdim)`
are neither `(1, 1)` nor `(2, 2)`, `plot` raises
`RuntimeError("Unsupported functionality")` (matplotlib being
importable). -/
theorem plot_unsupported_dimension (gdim tdim deg nf : ℕ)
    (h1 : ¬(gdim = 1 ∧ tdim = 1)) (h2 : ¬(gdim = 2 ∧ tdim = 2)) :
    plot_model true true gdim tdim deg nf =
      Except.error PlotError.runtimeUnsupported := by
  have hA : ¬(gdim = tdim ∧ tdim = 1) := by omega
  have hB : ¬(gdim = tdim ∧ tdim = 2) := by omega
  simp [plot_model, hA, hB]

/-- Witness for C8 at `(gdim, tdim) = (3, 3)`. -/
theorem plot_unsupported_dimension_witness :
    plot_model true true 3 3 1 0 = Except.error PlotError.runtimeUnsupported :=
  plot_unsupported_dimension 3 3 1 0 (by decide) (by decide)

/-- Counterexample to claim C3 as stated: at degree 4, `bezier_plot` does
fail, but with the `KeyError` from indexing the path-code dictionary, not
with the module's `RuntimeError("Unsupported functionality")`. -/
theorem bezier_plot_deg4_not_unsupported :
    bezier_plot_model true 4 = Except.error PlotError.keyError ∧
    bezier_plot_model true 4 ≠ Except.error PlotError.runtimeUnsupported := by
  refine ⟨rfl, fun h => ?_⟩
  have h2 : Except.error (ε := PlotError) (α := RenderOutcome)
      PlotError.keyError = Except.error PlotError.runtimeUnsupported := h
  simp at h2

/-- Claim C3 (amended): for every degree ≥ 4, `bezier_plot` fails — with
a `KeyError` raised by the `codes[deg]` dictionary lookup (lines
344-348), not with an unsupported-functionality `RuntimeError`. -/
theorem bezier_plot_high_degree_keyerror (deg : ℕ) (h : 4 ≤ deg) :
    bezier_plot_model true deg = Except.error PlotError.keyError := by
  have hc : bezier_codes deg = none := by
    simp [bezier_codes, show deg ≠ 1 by omega, show deg ≠ 2 by omega,
      show deg ≠ 3 by omega]
  simp [bezier_plot_model, show deg ≠ 0 by omega, bezier_plot_body, hc]

/-- Witness for the amended C3 at degree 5. -/
theorem bezier_plot_high_degree_keyerror_witness :
    bezier_plot_model true 5 = Except.error PlotError.keyError :=
  bezier_plot_high_degree_keyerror 5 (by decide)

/-- Counterexample to claim C9 as stated: `_plot_mult` (and hence `plot`
on a list of functions) called with an empty function list returns
`None` — it neither returns a figure nor raises. -/
theorem plot_mult_empty_returns_none :
    plot_mult_model true 0 = Except.ok RenderOutcome.noneReturned ∧
    plot_model false true 1 1 1 0 = Except.ok RenderOutcome.noneReturned ∧
    RenderOutcome.noneReturned ≠ RenderOutcome.fig :=
  ⟨rfl, rfl, by decide⟩

/-- Every outcome of `bezier_plot` is a figure or an error. -/
theorem bezier_plot_model_fig_or_error (mpl : Bool) (deg : ℕ) :
    bezier_plot_model mpl deg = Except.ok RenderOutcome.fig ∨
    ∃ e, bezier_plot_model mpl deg = Except.error e := by
  have hbody : ∀ d, bezier_plot_body d = Except.ok RenderOutcome.fig ∨
      ∃ e, bezier_plot_body d = Except.error e := by
    intro d
    rcases hcd : bezier_codes d with _ | l
    · exact Or.inr ⟨PlotError.keyError, by simp [bezier_plot_body, hcd]⟩
    · exact Or.inl (by simp [bezier_plot_body, hcd])
  cases mpl
  · exact Or.inr ⟨PlotError.matplotlibMissing, by simp [bezier_plot_model]⟩
  · have hm : bezier_plot_model true deg =
        if deg = 0 then bezier_plot_body 1 else bezier_plot_body deg := by
      simp [bezier_plot_model]
    rw [hm]
    by_cases h0 : deg = 0
    · rw [if_pos h0]; exact hbody 1
    · rw [if_neg h0]; exact hbody deg

/-- Claim C9 (amended): `plot` on a single function, and `_plot_mult` on
a nonempty function list, return a figure or raise; but `_plot_mult` on
an empty list returns `None` without raising, and the notebook renderer
`interactive_multiple_plot` never returns a figure (it returns `None` or
raises). -/
theorem renderer_figure_or_error (isF mpl ipw : Bool) (g t d nf : ℕ) :
    (plot_model isF mpl g t d nf = Except.ok RenderOutcome.fig ∨
      (∃ e, plot_model isF mpl g t d nf = Except.error e) ∨
      (isF = false ∧ nf = 0 ∧
        plot_model isF mpl g t d nf = Except.ok RenderOutcome.noneReturned)) ∧
    interactive_multiple_plot_model ipw ≠ Except.ok RenderOutcome.fig := by
  constructor
  · cases isF
    · cases mpl
      · exact Or.inr (Or.inl ⟨PlotError.matplotlibMissing,
          by simp [plot_model, plot_mult_model]⟩)
      · by_cases hnf : nf = 0
        · exact Or.inr (Or.inr ⟨rfl, hnf,
            by simp [plot_model, plot_mult_model, hnf]⟩)
        · exact Or.inl (by simp [plot_model, plot_mult_model, hnf])
    · cases mpl
      · exact Or.inr (Or.inl ⟨PlotError.matplotlibMissing,
          by simp [plot_model]⟩)
      · by_cases hA : g = t ∧ t = 1
        · by_cases hd : d < 4
          · rcases bezier_plot_model_fig_or_error true d with h | ⟨e, he⟩
            · exact Or.inl (by simp only [plot_model]; simp [hA, hd, h])
            · exact Or.inr (Or.inl ⟨e,
                by simp only [plot_model]; simp [hA, hd, he]⟩)
          · exact Or.inl (by simp [plot_model, hA, hd])
        · by_cases hB : g = t ∧ t = 2
          · exact Or.inl (by simp [plot_model, hA, hB])
          · exact Or.inr (Or.inl ⟨PlotError.runtimeUnsupported,
              by simp [plot_model, hA, hB]⟩)
  · cases ipw <;> simp [interactive_multiple_plot_model]

/-- Claim C6: every sample point `(x, y)` produced for a triangle cell
lies within the reference triangle: `0 ≤ x`, `0 ≤ y` and `x + y ≤ 1`. -/
theorem triangle_points_in_reference (n : ℕ) (q : ℚ × ℚ)
    (hq : q ∈ triangle_points n) :
    0 ≤ q.1 ∧ 0 ≤ q.2 ∧ q.1 + q.2 ≤ 1 := by
  simp only [triangle_points, List.mem_flatMap, List.mem_map, List.mem_filter,
    List.mem_range, decide_eq_true_eq] at hq
  obtain ⟨i, hi, j, ⟨hj, hij⟩, rfl⟩ := hq
  rcases Nat.lt_or_ge n 2 with hn | hn
  · have hn1 : n = 1 := by omega
    subst hn1
    have hi0 : i = 0 := by omega
    have hj0 : j = 0 := by omega
    subst hi0
    subst hj0
    refine ⟨?_, ?_, ?_⟩ <;> norm_num [linVal]
  · have h2 : (2 : ℚ) ≤ (n : ℚ) := by exact_mod_cast hn
    have hd : (0 : ℚ) < (n : ℚ) - 1 := by linarith
    have h1n : 1 ≤ n := by omega
    refine ⟨?_, ?_, ?_⟩
    · show 0 ≤ linVal n i
      exact div_nonneg (Nat.cast_nonneg i) hd.le
    · show 0 ≤ linVal n (n - 1 - j)
      exact div_nonneg (Nat.cast_nonneg _) hd.le
    · show linVal n i + linVal n (n - 1 - j) ≤ 1
      unfold linVal
      rw [div_add_div_same, div_le_one hd]
      have hle : i + (n - 1 - j) ≤ n - 1 := by omega
      calc (i : ℚ) + ((n - 1 - j : ℕ) : ℚ)
          = ((i + (n - 1 - j) : ℕ) : ℚ) := by push_cast; ring
        _ ≤ ((n - 1 : ℕ) : ℚ) := by exact_mod_cast hle
        _ = (n : ℚ) - 1 := by
            push_cast [Nat.cast_sub h1n]
            ring

/-- Witness for C6 at `n = 3` and the grid point `(0, 1)`. -/
theorem triangle_points_in_reference_witness :
    0 ≤ ((0 : ℚ), (1 : ℚ)).1 ∧ 0 ≤ ((0 : ℚ), (1 : ℚ)).2 ∧
      ((0 : ℚ), (1 : ℚ)).1 + ((0 : ℚ), (1 : ℚ)).2 ≤ 1 :=
  triangle_points_in_reference 3 (0, 1) (by
    simp only [triangle_points, List.mem_flatMap, List.mem_map,
      List.mem_filter, List.mem_range, decide_eq_true_eq]
    refine ⟨0, by norm_num, 0, ⟨by norm_num, le_refl 0⟩, ?_⟩
    norm_num [linVal])

/-- Claim C5: the array returned by `calculate_one_dim_points` has a
monotonically non-decreasing x row, and its (x, y) column pairs are a
permutation of the flattened (coordinate, value) pairs produced by the
evaluator — the sort reorders both rows by the same permutation. -/
theorem one_dim_points_sorted_and_permuted (c p : ℕ)
    (x_vals y_vals : Fin c → Fin p → Fin 1 → ℚ) :
    List.Pairwise (· ≤ ·) (calculate_one_dim_points c p x_vals y_vals).1 ∧
    ((calculate_one_dim_points c p x_vals y_vals).1.zip
        (calculate_one_dim_points c p x_vals y_vals).2).Perm
      ((flatten_vals c p x_vals).zip (flatten_vals c p y_vals)) := by
  have hzip : ∀ s : List (ℚ × ℚ), (s.map Prod.fst).zip (s.map Prod.snd) = s := by
    intro s
    rw [List.zip_map']
    simp
  constructor
  · show List.Pairwise (· ≤ ·)
      ((List.insertionSort xle ((flatten_vals c p x_vals).zip
        (flatten_vals c p y_vals))).map Prod.fst)
    exact List.Pairwise.map Prod.fst (fun a b hab => hab)
      (List.sorted_insertionSort xle _)
  · show (((List.insertionSort xle ((flatten_vals c p x_vals).zip
        (flatten_vals c p y_vals))).map Prod.fst).zip
      ((List.insertionSort xle ((flatten_vals c p x_vals).zip
        (flatten_vals c p y_vals))).map Prod.snd)).Perm
      ((flatten_vals c p x_vals).zip (flatten_vals c p y_vals))
    rw [hzip]
    exact List.perm_insertionSort xle _

/-- Every member of a list of naturals is bounded by its `foldr max 0`. -/
theorem mem_le_foldr_max (x : ℕ) (l : List ℕ) (h : x ∈ l) :
    x ≤ l.foldr max 0 := by
  induction l with
  | nil => cases h
  | cons y ys ih =>
    rcases List.mem_cons.mp h with rfl | h2
    · exact le_max_left _ _
    · exact le_trans (ih h2) (le_max_right _ _)

/-- A vertex index of an offset cell decomposes as a local index plus the
cell offset. -/
theorem mem_tri_indices_offset {tris : List (ℕ × ℕ × ℕ)} {V cell a : ℕ}
    (h : a ∈ tri_indices (offset_cell_triangles tris V cell)) :
    ∃ la ∈ tri_indices tris, a = la + cell * V := by
  simp only [tri_indices, offset_cell_triangles, List.mem_flatMap,
    List.mem_map] at h ⊢
  obtain ⟨t', ⟨t, ht, rfl⟩, ha⟩ := h
  simp only [List.mem_cons, List.not_mem_nil, or_false] at ha
  rcases ha with rfl | rfl | rfl
  · exact ⟨t.1, ⟨t, ht, by simp⟩, rfl⟩
  · exact ⟨t.2.1, ⟨t, ht, by simp⟩, rfl⟩
  · exact ⟨t.2.2, ⟨t, ht, by simp⟩, rfl⟩

/-- Claim C4: with each cell's local triangle-vertex indices offset by
`cell_index * num_verts` (`num_verts = triangles.max() + 1`), the global
vertex array has length (reference vertex count) × (number of cells), and
no vertex index is shared between the triangles of two different cells. -/
theorem triangulation_offsets_disjoint (tris : List (ℕ × ℕ × ℕ))
    (num_cells P : ℕ) (xcoords : Fin num_cells → Fin P → ℚ) :
    (global_X num_cells P xcoords).length = P * num_cells ∧
    ∀ c1 c2 : ℕ, c1 ≠ c2 →
      ∀ a ∈ tri_indices (offset_cell_triangles tris (tri_num_verts tris) c1),
      ∀ b ∈ tri_indices (offset_cell_triangles tris (tri_num_verts tris) c2),
        a ≠ b := by
  constructor
  · simp [global_X, List.length_flatMap, Function.comp_def, List.map_const',
      List.sum_replicate, smul_eq_mul, Nat.mul_comm]
  · intro c1 c2 hne a ha b hb
    obtain ⟨la, hla, rfl⟩ := mem_tri_indices_offset ha
    obtain ⟨lb, hlb, rfl⟩ := mem_tri_indices_offset hb
    have hVla : la < tri_num_verts tris :=
      Nat.lt_succ_of_le (mem_le_foldr_max la _ hla)
    have hVlb : lb < tri_num_verts tris :=
      Nat.lt_succ_of_le (mem_le_foldr_max lb _ hlb)
    have hV : 0 < tri_num_verts tris := Nat.succ_pos _
    intro heq
    apply hne
    have hq1 : (la + c1 * tri_num_verts tris) / tri_num_verts tris = c1 := by
      rw [Nat.mul_comm c1, Nat.add_mul_div_left _ _ hV,
        Nat.div_eq_of_lt hVla, Nat.zero_add]
    have hq2 : (lb + c2 * tri_num_verts tris) / tri_num_verts tris = c2 := by
      rw [Nat.mul_comm c2, Nat.add_mul_div_left _ _ hV,
        Nat.div_eq_of_lt hVlb, Nat.zero_add]
    rw [← hq1, ← hq2, heq]

/-- Witness for C4: the refined triangulation `[(0,1,2), (1,2,3)]`
(`num_verts = 4`, `P = 4`) over two cells; index 0 of cell 0 differs from
index 4 of cell 1. -/
theorem triangulation_offsets_disjoint_witness :
    (global_X 2 4 (fun _ _ => (0 : ℚ))).length = 4 * 2 ∧ (0 : ℕ) ≠ 4 :=
  ⟨(triangulation_offsets_disjoint [(0, 1, 2), (1, 2, 3)] 2 4
      (fun _ _ => 0)).1,
    (triangulation_offsets_disjoint [(0, 1, 2), (1, 2, 3)] 2 4
      (fun _ _ => 0)).2 0 1 (by decide) 0 (by decide) 4 (by decide)⟩

/-- Claim C2: the Field Evaluator returns identical value arrays for a
scalar function (`ufl_shape = ()`) and a single-component vector function
(`ufl_shape = (1,)`) carrying the same coefficients; in both cases
`vec_length = 1` so the result is indexed `(cell, point, component)` with
exactly one component. -/
theorem calculate_values_scalar_eq_vector1 (c n p : ℕ)
    (coeff : Fin c → Fin n → ℚ)
    (datav : Fin c → Fin n → Fin (vec_length [1]) → ℚ)
    (hsame : ∀ i j k, datav i j k = coeff i j)
    (elem : Fin n → Fin p → ℚ) :
    vec_length [] = 1 ∧ vec_length [1] = 1 ∧
    calculate_values [] c n p (reshape_append_axis c n coeff) elem =
      calculate_values [1] c n p datav elem := by
  refine ⟨rfl, rfl, ?_⟩
  funext i l k
  simp only [calculate_values, einsum_ijk_jl_ilk, reshape_append_axis]
  exact Finset.sum_congr rfl fun j _ => by rw [hsame i j k]

/-- Witness for C2 with one cell, one node, one point and coefficient 2. -/
theorem calculate_values_scalar_eq_vector1_witness :
    vec_length [] = 1 ∧ vec_length [1] = 1 ∧
    calculate_values [] 1 1 1 (reshape_append_axis 1 1 fun _ _ => (2 : ℚ))
        (fun _ _ => (3 : ℚ)) =
      calculate_values [1] 1 1 1 (fun _ _ _ => (2 : ℚ)) (fun _ _ => (3 : ℚ)) :=
  calculate_values_scalar_eq_vector1 1 1 1 (fun _ _ => 2) (fun _ _ _ => 2)
    (fun _ _ _ => rfl) (fun _ _ => 3)

/-- Claim C1: for a degree-1 element whose two degrees of freedom sit at
reference coordinates 0 and 1, the matrix `M` with `M[i, j]` the degree-1
Bernstein value of index `i` at the `j`-th dof coordinate is the 2×2
identity, so the control points `data · M⁻¹` equal the nodal values
exactly. -/
theorem bezier_deg1_roundtrip (dofPt : Fin 2 → ℚ) (h0 : dofPt 0 = 0)
    (h1 : dofPt 1 = 1) (c : ℕ) (data : Fin c → Fin 2 → ℚ) :
    bezier_M 1 dofPt = 1 ∧
    bezier_calculate_points 1 c dofPt data = data := by
  have hdof : dofPt = ![0, 1] := by
    funext x
    fin_cases x
    · exact h0
    · exact h1
  subst hdof
  have hM : bezier_M 1 ![0, 1] = 1 := by
    ext i j
    fin_cases i <;> fin_cases j <;>
      norm_num [bezier_M, _bernstein, Matrix.of_apply, Matrix.one_apply,
        Matrix.cons_val_zero, Matrix.cons_val_one, Matrix.head_cons,
        Nat.factorial]
  refine ⟨hM, ?_⟩
  funext cell j
  have hinv : np_linalg_inv (bezier_M 1 ![0, 1]) = 1 := by
    rw [hM]
    simp [np_linalg_inv]
  simp only [bezier_calculate_points, hinv]
  simp [Matrix.one_apply, mul_ite, mul_one, mul_zero, Finset.sum_ite_eq']

/-- Witness for C1 with nodal values `(3, 5)` on one cell. -/
theorem bezier_deg1_roundtrip_witness :
    bezier_M 1 ![0, 1] = 1 ∧
    bezier_calculate_points 1 1 ![0, 1] ![![3, 5]] = ![![3, 5]] :=
  bezier_deg1_roundtrip ![0, 1] rfl rfl 1 ![![3, 5]]

end FiredrakePlot
